import Mathlib

/-!
# Verification of the nagare sessions core

A shallow embedding of the session/state store of `nagare-services-sessions`:

* `nagare/sessions/common.py` — the `Compressor` hierarchy and the
  `Sessions.fetch` / `Sessions.store` pipeline (decompress + unpickle,
  serialize + conditional compression);
* `nagare/sessions/serializer.py` — `Pickle.loads`, which turns any
  unpickling failure of the state blob into a `StateError`;
* `nagare/services/http_session.py` — the request-scoped `Session` handle
  (`create` / `get_lock` / `fetch` / `store` / `delete` and the `enter`
  context manager) and `SessionService` (cookie and parameter extraction,
  the secure-token check inside `handle_request`).

Python byte strings are `List Nat`, Python strings are `List Char`,
exceptions are values of the inductive `PyErr` threaded through `Except`,
and the side effects of the `Session` handle (calls to the backing sessions
manager) are recorded as an explicit event trace `List Ev`.  External
collaborators — the storage backend, the compression library primitives,
the unpickler, the downstream request-handling chain — are parameters of
the embedded functions.
-/

deriving instance DecidableEq for Except

namespace Nagare

/-- Python byte strings, as lists of byte values. -/
abbrev Bytes := List Nat

/-- Python strings, as lists of characters (ASCII is assumed throughout). -/
abbrev PyStr := List Char

/-- The exceptions the embedded code can raise.  `keyError`, `valueError`,
`typeError` and `indexError` are the Python builtins; `lockError` through
`sessionSecurityError` are the classes of `nagare/sessions/exceptions.py`;
`libraryError` stands for an exception raised inside an external library
(such as `zlib.error` on a corrupt stream); `redirect` stands for the
redirect response object raised by `SessionService.handle_request`'s
`except InvalidSessionError` handler. -/
inductive PyErr where
  | keyError
  | valueError
  | typeError
  | indexError
  | lockError
  | stateError
  | storageError
  | expirationError
  | sessionSecurityError
  | libraryError
  | redirect
  deriving DecidableEq, Repr

/-- `isinstance(e, InvalidSessionError)`: in `exceptions.py`,
`ExpirationError` and `SessionSecurityError` are the only subclasses of
`InvalidSessionError` (the critical errors derive from
`CriticalSessionError` instead). -/
def PyErr.isInvalidSessionError : PyErr → Bool
  | .expirationError => true
  | .sessionSecurityError => true
  | _ => false

/-! ## Compressors (`nagare/sessions/common.py`) -/

/-- A concrete compressor class.  `_compress` and `_decompress` are the
external library primitives bound as class attributes (`zlib.compress`,
`gzip.decompress`, ...); `_decompress` can raise a library error on corrupt
input.  `is_compressed` is the magic-header sniff; it returns `none` when
the Python expression itself raises (out-of-range byte indexing on a
1-byte input). -/
structure CompressorImpl where
  _compress : Bytes → Bytes
  _decompress : Bytes → Except PyErr Bytes
  is_compressed : Bytes → Option Bool

namespace Compressor

/-- `Compressor.compress`: keep the compressed data only when it is
strictly smaller than the input, otherwise return the input unchanged. -/
def compress (cls : CompressorImpl) (data : Bytes) : Bytes :=
  let compressed_data := cls._compress data
  if compressed_data.length < data.length then compressed_data else data

/-- `Compressor.decompress`: apply `_decompress` only when `is_compressed`
recognizes the data; an exception inside `is_compressed` propagates. -/
def decompress (cls : CompressorImpl) (data : Bytes) : Except PyErr Bytes :=
  match cls.is_compressed data with
  | none => .error .indexError
  | some true => cls._decompress data
  | some false => .ok data

end Compressor

/-- `ZLibCompressor.is_compressed`:
`data and (data[0] == 0x78) and ((data[0] * 256 + data[1]) % 31 == 0)`.
Empty data is falsy; on the 1-byte string `[0x78]` the short-circuit
reaches `data[1]`, which raises `IndexError` (modelled as `none`). -/
def ZLib.is_compressed : Bytes → Option Bool
  | [] => some false
  | [b0] => if b0 = 0x78 then none else some false
  | b0 :: b1 :: _ => some (b0 == 0x78 && (b0 * 256 + b1) % 31 == 0)

/-- `GZipCompressor.is_compressed`:
`data and (data[0] == 0o37) and (data[1] == 0o213)`.  Empty data is falsy;
on the 1-byte string `[0o37]` the short-circuit reaches `data[1]`, which
raises `IndexError` (modelled as `none`). -/
def GZip.is_compressed : Bytes → Option Bool
  | [] => some false
  | [b0] => if b0 = 0o37 then none else some false
  | b0 :: b1 :: _ => some (b0 == 0o37 && b1 == 0o213)

/-- `ZLibCompressor`, with the external `zlib.compress` / `zlib.decompress`
primitives abstracted as parameters. -/
def ZLibCompressor (c : Bytes → Bytes) (d : Bytes → Except PyErr Bytes) :
    CompressorImpl :=
  ⟨c, d, ZLib.is_compressed⟩

/-- `GZipCompressor`, with the external `gzip.compress` / `gzip.decompress`
primitives abstracted as parameters. -/
def GZipCompressor (c : Bytes → Bytes) (d : Bytes → Except PyErr Bytes) :
    CompressorImpl :=
  ⟨c, d, GZip.is_compressed⟩

/-! ## Serializer (`nagare/sessions/serializer.py`) -/

/-- An unpickler over a byte stream: `load tbl bytes pos` reads the next
object from `bytes` starting at offset `pos` — resolving persistent ids
through the optional session table `tbl` (the `persistent_load` hook) —
and returns the loaded value together with the new offset, or raises.
Pickled values and the session table are modelled as `Nat`. -/
structure UnpicklerM where
  load : Option Nat → Bytes → Nat → Except PyErr (Nat × Nat)

namespace Pickle

/-- The part of `Pickle.loads` before the `try` block: when `session_data`
is non-empty (truthy) it is unpickled to build the `persistent_load`
table.  This happens outside the `try`, so a failure here propagates as
the raw unpickling exception, not as `StateError`. -/
def load_session_table (u : UnpicklerM) (session_data : Bytes) :
    Except PyErr (Option Nat) :=
  if session_data.isEmpty then .ok none
  else
    match u.load none session_data 0 with
    | .error e => .error e
    | .ok (v, _) => .ok (some v)

/-- `Pickle.loads(session_data, state_data)`: build the session table, then
`return p.load(), p.load()` — the object graph followed by the callback
registry, read sequentially from the same state stream — with any
exception of either `load` converted to `StateError`. -/
def loads (u : UnpicklerM) (session_data state_data : Bytes) :
    Except PyErr (Nat × Nat) :=
  match load_session_table u session_data with
  | .error e => .error e
  | .ok tbl =>
    match u.load tbl state_data 0 with
    | .error _ => .error .stateError
    | .ok (v1, pos) =>
      match u.load tbl state_data pos with
      | .error _ => .error .stateError
      | .ok (v2, _) => .ok (v1, v2)

end Pickle

/-! ## Sessions manager (`nagare/sessions/common.py`) -/

/-- A persisted record, as returned by the abstract backend `_fetch`:
`(new_state_id, secure_token, session_data, state_data)`. -/
structure FetchedRecord where
  new_state_id : Int
  secure_token : Bytes
  session_data : Bytes
  state_data : Bytes
  deriving DecidableEq, Repr

/-- The arguments of the backend `_store` call made at the end of
`Sessions.store`. -/
structure StoreCall where
  session_id : Int
  state_id : Int
  secure_token : Bytes
  use_same_state : Bool
  session_data : Bytes
  state_data : Bytes
  deriving DecidableEq, Repr

namespace Sessions

/-- `Sessions.fetch`: read the raw record through the abstract backend
`_fetch`, decompress the state blob, deserialize through the serializer
(`Pickle.loads`).  No exception is caught here: backend errors,
decompression errors and `StateError` all propagate. -/
def fetch (compressor : CompressorImpl) (u : UnpicklerM)
    (_fetch : Int → Int → Except PyErr FetchedRecord)
    (session_id state_id : Int) : Except PyErr (Int × Bytes × (Nat × Nat)) :=
  match _fetch session_id state_id with
  | .error e => .error e
  | .ok r =>
    match Compressor.decompress compressor r.state_data with
    | .error e => .error e
    | .ok state_bytes =>
      match Pickle.loads u r.session_data state_bytes with
      | .error e => .error e
      | .ok graph => .ok (r.new_state_id, r.secure_token, graph)

/-- `Sessions.store`: serialize the graph (`dumps` abstracts
`self.serializer.dumps(data, not use_same_state)`; the graph itself is
modelled as an opaque `Nat`), then
`if self.min_compress_len and state_data_len > self.min_compress_len`
compress the state blob, and call the backend `_store` with the resulting
arguments.  `min_compress_len` is an integer configuration value whose
Python truthiness is `≠ 0`.  The `debug` branch only logs sizes and is
omitted. -/
def store (min_compress_len : Int) (compressor : CompressorImpl)
    (dumps : Nat → Bool → Bytes × Bytes)
    (session_id state_id : Int) (secure_token : Bytes) (use_same_state : Bool)
    (data : Nat) : StoreCall :=
  let sd := dumps data (!use_same_state)
  let session_data := sd.1
  let state_data := sd.2
  let state_data_len := state_data.length
  let state_data :=
    if min_compress_len ≠ 0 ∧ (state_data_len : Int) > min_compress_len then
      Compressor.compress compressor state_data
    else state_data
  ⟨session_id, state_id, secure_token, use_same_state, session_data, state_data⟩

end Sessions

/-! ## Request-scoped session handle (`nagare/services/http_session.py`) -/

/-- Application object graphs and callback registries handed to the
request-handling chain (dicts, modelled as association lists). -/
abbrev Graph := List (Nat × Nat)

/-- The callback registry extracted during deserialization. -/
abbrev Callbacks := List (Nat × Nat)

/-- The attributes of the response object that `handle_request` reads:
`getattr(response, 'delete_session', False)` and
`getattr(response, 'use_same_state', False)`. -/
structure Response where
  delete_session : Bool
  use_same_state : Bool
  deriving DecidableEq, Repr

/-- The calls the `Session` handle makes on the backing sessions manager
(`self.session`) and on its lock, recorded as an event trace.  `lock_enter`
carries the status the lock's `__enter__` returned; `lock_exit` is the
guaranteed `__exit__` of the `with lock` block.  The ids are `Option Int`
because a new session starts with `session_id = state_id = None`. -/
inductive Ev where
  | create
  | get_lock
  | lock_enter (status : Bool)
  | lock_exit
  | fetch (session_id : Option Int) (state_id : Option Int)
  | store (session_id : Option Int) (state_id : Option Int)
      (secure_token : Bytes) (use_same_state : Bool)
  | delete (session_id : Option Int)
  deriving DecidableEq, Repr

/-- `e` is a call that reads or writes persisted session data. -/
def Ev.isData : Ev → Bool
  | .fetch _ _ => true
  | .store _ _ _ _ => true
  | .delete _ => true
  | _ => false

/-- `e` is a `store` call. -/
def Ev.isStore : Ev → Bool
  | .store _ _ _ _ => true
  | _ => false

/-- `e` is a `delete` call. -/
def Ev.isDelete : Ev → Bool
  | .delete _ => true
  | _ => false

/-- The backing sessions manager, as seen from the handle: the results of
`create` (fresh ids, token and an already-created lock, modelled by the
status its `__enter__` will return), of `get_lock` (likewise the entry
status), and of `fetch` (`(new_state_id, secure_token, (data, callbacks))`,
or an exception such as `ExpirationError`, `StorageError` or
`StateError`). -/
structure Manager where
  createRes : Bytes → Int × Int × Bytes × Bool
  getLockRes : Option Int → Bool
  fetchRes : Option Int → Option Int →
    Except PyErr (Int × Bytes × (Graph × Callbacks))

/-- The mutable attributes of the request-scoped `Session` handle. -/
structure Session where
  is_new : Bool
  secure_token : Bytes
  session_id : Option Int
  state_id : Option Int
  previous_state_id : Option Int
  use_same_state : Bool
  data : Graph
  is_expired : Bool
  deriving DecidableEq, Repr

namespace Session

/-- `Session.__init__`: `state_id` and `previous_state_id` both start as
the requested state id, `data` as the empty dict, `is_expired` as
`False`. -/
def init (is_new : Bool) (secure_token : Bytes)
    (session_id state_id : Option Int) (use_same_state : Bool) : Session :=
  { is_new := is_new
    secure_token := secure_token
    session_id := session_id
    state_id := state_id
    previous_state_id := state_id
    use_same_state := use_same_state
    data := []
    is_expired := false }

/-- `Session.create`: ask the manager for fresh ids, token and lock, set
`previous_state_id` to the fresh `state_id`, and return the lock (its
entry status). -/
def create (mgr : Manager) (s : Session) : Session × Bool :=
  let r := mgr.createRes s.secure_token
  ({ s with
      session_id := some r.1
      state_id := some r.2.1
      previous_state_id := some r.2.1
      secure_token := r.2.2.1 },
   r.2.2.2)

/-- `Session.fetch`: a new session yields its (empty) `data` and an empty
callback registry without touching the manager; otherwise the manager's
`fetch` is called with the requested ids, the token is refreshed, and —
only when `use_same_state` is false — the visible `state_id` advances to
the returned latest id while `previous_state_id` remembers the requested
one.  Returns the trace of manager calls and the outcome. -/
def fetch (mgr : Manager) (s : Session) :
    List Ev × Except PyErr (Session × Graph × Callbacks) :=
  if s.is_new then
    ([], .ok (s, s.data, []))
  else
    let ev := Ev.fetch s.session_id s.state_id
    match mgr.fetchRes s.session_id s.state_id with
    | .error e => ([ev], .error e)
    | .ok (new_state_id, tok, d, cb) =>
      let s1 :=
        if s.use_same_state then
          { s with secure_token := tok, data := d }
        else
          { s with
              secure_token := tok
              data := d
              state_id := some new_state_id
              previous_state_id := s.state_id }
      ([ev], .ok (s1, d, cb))

/-- `Session.store`: the call
`self.session.store(self.session_id, state_id, self.secure_token,
self.use_same_state, self.data)` with
`state_id = self.previous_state_id if self.use_same_state else
self.state_id`, recorded as an event. -/
def store (s : Session) : Ev :=
  let state_id := if s.use_same_state then s.previous_state_id else s.state_id
  Ev.store s.session_id state_id s.secure_token s.use_same_state

/-- The status returned by the lock's `__enter__` in `Session.enter`: the
lock comes from `create` for a new session and from `get_lock`
otherwise. -/
def lock_status (mgr : Manager) (s : Session) : Bool :=
  if s.is_new then (mgr.createRes s.secure_token).2.2.2
  else mgr.getLockRes s.session_id

/-- The first line of `Session.enter`:
`lock = self.create() if self.is_new else self.get_lock()` — returning the
(possibly updated) handle, the lock's entry status, and the manager call
made. -/
def acquire (mgr : Manager) (s : Session) : Session × Bool × List Ev :=
  if s.is_new then
    let r := Session.create mgr s
    (r.1, r.2, [Ev.create])
  else
    (s, mgr.getLockRes s.session_id, [Ev.get_lock])

/-- `Session.enter`, composed with the body of the `with session.enter()`
block (the `@contextmanager` generator together with its client):

* acquire the lock by `create` (new session) or `get_lock`;
* enter `with lock as status`; from here on, every path below runs the
  lock's `__exit__` (event `lock_exit`) when it leaves the block;
* `raise LockError` when the status is falsy;
* `yield self.fetch()` — a fetch failure propagates; an exception raised
  by the body is rethrown at the yield point, so the generator never
  reaches the store/delete step;
* on normal completion of the body, `delete` when `is_expired` was set,
  otherwise `store`.

The body receives the yielded `(data, callbacks)` pair and the handle, and
returns the updated handle and the response (or raises). -/
def enter (mgr : Manager) (s : Session)
    (body : Graph → Callbacks → Session → Except PyErr (Session × Response)) :
    List Ev × Except PyErr (Session × Response) :=
  let acq := Session.acquire mgr s
  let s0 := acq.1
  let lock := acq.2.1
  let trace := acq.2.2 ++ [Ev.lock_enter lock]
  if lock = false then
    (trace ++ [Ev.lock_exit], .error .lockError)
  else
    let f := Session.fetch mgr s0
    match f.2 with
    | .error e => (trace ++ f.1 ++ [Ev.lock_exit], .error e)
    | .ok (s1, d, cb) =>
      match body d cb s1 with
      | .error e => (trace ++ f.1 ++ [Ev.lock_exit], .error e)
      | .ok (s2, r) =>
        if s2.is_expired then
          (trace ++ f.1 ++ [Ev.delete s2.session_id, Ev.lock_exit], .ok (s2, r))
        else
          (trace ++ f.1 ++ [Session.store s2, Ev.lock_exit], .ok (s2, r))

end Session

/-! ## Python string helpers -/

/-- Python `s.split(sep)` on a one-character separator: split at every
occurrence, keeping empty parts (`''.split(':') == ['']`). -/
def pySplit (sep : Char) : PyStr → List PyStr
  | [] => [[]]
  | c :: rest =>
    let r := pySplit sep rest
    if c = sep then [] :: r
    else
      match r with
      | [] => [[c]]
      | h :: t => (c :: h) :: t

/-- The value of a decimal digit character. -/
def pyDigit (c : Char) : Option Nat :=
  if '0' ≤ c ∧ c ≤ '9' then some (c.toNat - '0'.toNat) else none

/-- Accumulate the decimal value of a digit string; `none` on the first
non-digit. -/
def pyDigitsAux : PyStr → Nat → Option Nat
  | [], acc => some acc
  | c :: cs, acc =>
    match pyDigit c with
    | none => none
    | some d => pyDigitsAux cs (acc * 10 + d)

/-- Python `int(s)` on a string: optional surrounding whitespace, optional
sign, then one or more decimal digits; anything else raises
`ValueError`. -/
def pyInt (s : PyStr) : Except PyErr Int :=
  let t := ((s.dropWhile (· = ' ')).reverse.dropWhile (· = ' ')).reverse
  match t with
  | '-' :: ds =>
    match ds, pyDigitsAux ds 0 with
    | _ :: _, some n => .ok (-(n : Int))
    | _, _ => .error .valueError
  | '+' :: ds =>
    match ds, pyDigitsAux ds 0 with
    | _ :: _, some n => .ok (n : Int)
    | _, _ => .error .valueError
  | ds =>
    match ds, pyDigitsAux ds 0 with
    | _ :: _, some n => .ok (n : Int)
    | _, _ => .error .valueError

/-- Python unpacking `a, b = l` of a list into two variables: raises
`ValueError` unless the list has exactly two elements. -/
def unpack2 {α : Type} (l : List α) : Except PyErr (α × α) :=
  match l with
  | [a, b] => .ok (a, b)
  | _ => .error .valueError

/-! ## `SessionService` -/

/-- The parts of the web request that the service reads: the cookie jar,
the query/POST parameters, and the XHR flag. -/
structure Request where
  cookies : PyStr → Option PyStr
  params : PyStr → Option PyStr
  is_xhr : Bool

/-- The configuration and collaborators of `SessionService` read by the
embedded logic: the `states_history` flag, the two cookie names
(`session_cookie['name']` and `security_cookie['name']`), and the
registered OAuth services (`self.services`), each modelled by the
`(session_id, state_id)` part of its `is_auth_response` result. -/
structure SessionService where
  states_history : Bool
  session_cookie_name : PyStr
  security_cookie_name : PyStr
  services : PyStr → Option (Request → Option Int × Option Int)

namespace SessionService

/-- `SessionService.get_cookie`: `(None, None)` when the cookie is absent
or contains no colon, otherwise the full `cookie.split(':')` list (whose
unpacking at the call sites raises `ValueError` when it does not have
exactly two parts). -/
def get_cookie (request : Request) (name : PyStr) : List (Option PyStr) :=
  match request.cookies name with
  | none => [none, none]
  | some cookie =>
    if cookie.contains ':' then (pySplit ':' cookie).map some
    else [none, none]

/-- `(data or '').encode('ascii')`, with strings modelled as ASCII. -/
def pyEncodeAscii (s : PyStr) : Bytes := s.map Char.toNat

/-- `SessionService.get_security_cookie`: the first part of the security
cookie, encoded to bytes (empty bytes when absent). -/
def get_security_cookie (self : SessionService) (request : Request) :
    Except PyErr Bytes :=
  match unpack2 (get_cookie request self.security_cookie_name) with
  | .error e => .error e
  | .ok (data, _) => .ok (pyEncodeAscii (data.getD []))

/-- `SessionService.get_session_cookie`: `int(data) if data else 0`; the
`int` conversion of a non-numeric cookie raises `ValueError`. -/
def get_session_cookie (self : SessionService) (request : Request) :
    Except PyErr Int :=
  match unpack2 (get_cookie request self.session_cookie_name) with
  | .error e => .error e
  | .ok (data, _) =>
    match data with
    | none => .ok 0
    | some d => if d.isEmpty then .ok 0 else pyInt d

/-- The OAuth shortcut at the top of `extract_state_ids`: taken when the
`state` parameter is truthy, starts with `#oauth#`, a `code` parameter is
present and the service named by `state.split('#')[2]` is registered; the
ids then come from that service's `is_auth_response`. -/
def oauth_branch (self : SessionService) (request : Request) :
    Option (Option Int × Option Int) :=
  match request.params "state".toList with
  | none => none
  | some st =>
    if st ≠ [] ∧ "#oauth#".toList.isPrefixOf st ∧
        (request.params "code".toList).isSome then
      match self.services ((pySplit '#' st).getD 2 []) with
      | none => none
      | some is_auth_response => some (is_auth_response request)
    else none

/-- The first element of the tuple in the `try` block of
`extract_state_ids`:
`self.get_session_cookie(request) or int(request.params['_s'])` — a zero
(falsy) session cookie falls through to the `_s` parameter; a missing
parameter raises `KeyError`, a non-integer one `ValueError`. -/
def session_id_expr (self : SessionService) (request : Request) :
    Except PyErr Int :=
  match self.get_session_cookie request with
  | .error e => .error e
  | .ok c =>
    if c ≠ 0 then .ok c
    else
      match request.params "_s".toList with
      | none => .error .keyError
      | some v => pyInt v

/-- The second element of the tuple in the `try` block:
`int(request.params['_c']) if self.states_history else 0`. -/
def state_id_expr (self : SessionService) (request : Request) :
    Except PyErr Int :=
  if self.states_history then
    match request.params "_c".toList with
    | none => .error .keyError
    | some v => pyInt v
  else .ok 0

/-- The body of the `try` block of `extract_state_ids`: both tuple
elements, evaluated left to right. -/
def extract_try (self : SessionService) (request : Request) :
    Except PyErr (Int × Int) :=
  match session_id_expr self request with
  | .error e => .error e
  | .ok sid =>
    match state_id_expr self request with
    | .error e => .error e
    | .ok stid => .ok (sid, stid)

/-- Does this exception match `except (KeyError, ValueError, TypeError)`? -/
def pyCatches : PyErr → Bool
  | .keyError => true
  | .valueError => true
  | .typeError => true
  | _ => false

/-- `SessionService.extract_state_ids`: the OAuth shortcut when it is
taken, otherwise the `try` block with `(KeyError, ValueError, TypeError)`
caught and turned into `(None, None)`.  Other exceptions (none arise in
the `try` body) would propagate. -/
def extract_state_ids (self : SessionService) (request : Request) :
    Except PyErr (Option Int × Option Int) :=
  match self.oauth_branch request with
  | some ids => .ok ids
  | none =>
    match self.extract_try request with
    | .ok (sid, stid) => .ok (some sid, some stid)
    | .error e => if pyCatches e then .ok (none, none) else .error e

/-- `SessionService.get_state_ids`: `(False, session_id, state_id)` when a
session id was found, `(True, None, None)` otherwise. -/
def get_state_ids (self : SessionService) (request : Request) :
    Except PyErr (Bool × Option Int × Option Int) :=
  match self.extract_state_ids request with
  | .error e => .error e
  | .ok (session_id, state_id) =>
    .ok (if session_id.isSome then (false, session_id, state_id)
         else (true, none, none))

/-- The downstream request-handling chain: `chain.next(...)` receives the
session data (and callbacks) and produces the response together with the
possibly mutated object graph, or raises. -/
structure Chain where
  next : Graph → Callbacks → Except PyErr (Response × Graph)

/-- The body of the `with session.enter() as (data, callbacks)` block of
`handle_request`:

* the secure-token check — only when the session is not new, the security
  cookie name is truthy and the stored token differs from the presented
  one — raising `SessionSecurityError`;
* the call to `chain.next` (which may mutate the data graph);
* `session.is_expired = delete_session = getattr(response,
  'delete_session', False)` (the cookie emission on the response object is
  external and not modelled);
* the `use_same_state` update
  `use_same_state or response.use_same_state or not states_history`.

Returns the updated handle and the response. -/
def request_body (self : SessionService) (chain : Chain)
    (secure_token : Bytes) (d : Graph) (cb : Callbacks) (s : Session) :
    Except PyErr (Session × Response) :=
  if !s.is_new ∧ self.security_cookie_name ≠ [] ∧ s.secure_token ≠ secure_token then
    .error .sessionSecurityError
  else
    match chain.next d cb with
    | .error e => .error e
    | .ok (response, d1) =>
      let s1 := { s with data := d1, is_expired := response.delete_session }
      let uss := s1.use_same_state || response.use_same_state || !self.states_history
      .ok ({ s1 with use_same_state := uss }, response)

/-- The `try` part of `SessionService.handle_request`: extract the ids and
the presented token, build the handle
(`use_same_state = request.is_xhr or not self.states_history`), and run
`session.enter()` around `request_body`.  The outcome carries the final
handle state alongside the returned response. -/
def handle_request_try (self : SessionService) (mgr : Manager) (chain : Chain)
    (request : Request) : List Ev × Except PyErr (Session × Response) :=
  match self.get_state_ids request with
  | .error e => ([], .error e)
  | .ok (new_session, session_id, state_id) =>
    let use_same_state := request.is_xhr || !self.states_history
    match self.get_security_cookie request with
    | .error e => ([], .error e)
    | .ok secure_token =>
      let session := Session.init new_session secure_token session_id state_id
        use_same_state
      Session.enter mgr session (self.request_body chain secure_token)

/-- `SessionService.handle_request`: the `try` part with
`except InvalidSessionError` turning an invalid-session failure into the
raised redirect response (after deleting both cookies on it — response
mutation is external and not modelled).  The extraction steps run before
the `try` in the source, but the exceptions they can raise (`KeyError`,
`ValueError`) are never `InvalidSessionError`, so applying the handler
uniformly to the whole computation is equivalent. -/
def handle_request (self : SessionService) (mgr : Manager) (chain : Chain)
    (request : Request) : List Ev × Except PyErr (Session × Response) :=
  let r := self.handle_request_try mgr chain request
  match r.2 with
  | .error e =>
    if e.isInvalidSessionError then (r.1, .error .redirect) else (r.1, .error e)
  | .ok v => (r.1, .ok v)

end SessionService

/-! ## Concrete instances used by witnesses -/

/-- A concrete manager: lock acquisitions succeed, and fetching returns
latest state 8, stored token `b"A"` (`[65]`) and a one-entry graph. -/
def mgrW : Manager :=
  ⟨fun _ => (1, 1, [0], true), fun _ => true,
   fun _ _ => .ok (8, [65], [(1, 2)], [])⟩

/-- A concrete non-new handle for session 5, state 0, without
`use_same_state`. -/
def sW : Session := Session.init false [65] (some 5) (some 0) false

/-- A body that returns the handle unchanged with a plain response. -/
def bodyW : Graph → Callbacks → Session → Except PyErr (Session × Response) :=
  fun _ _ s => .ok (s, ⟨false, false⟩)

/-- The state of `sW` after fetching through `mgrW`: token refreshed, data
loaded, `state_id` advanced to 8, `previous_state_id` remembering 0. -/
def s2W : Session := ⟨false, [65], some 5, some 8, some 0, false, [(1, 2)], false⟩

/-- A concrete service configuration: no state history, default cookie
names, no OAuth services. -/
def svcW : SessionService :=
  { states_history := false
    session_cookie_name := "nagare-session".toList
    security_cookie_name := "nagare-token".toList
    services := fun _ => none }

/-- A concrete request presenting session cookie `5:/` and security
cookie `B:/` (token `b"B"`). -/
def reqW : Request :=
  { cookies := fun n =>
      if n = "nagare-session".toList then some "5:/".toList
      else if n = "nagare-token".toList then some "B:/".toList
      else none
    params := fun _ => none
    is_xhr := false }

/-- A chain that returns a plain response and the graph unchanged. -/
def chainW : SessionService.Chain := ⟨fun d _ => .ok (⟨false, false⟩, d)⟩

/-- The same service configuration as `svcW`, but with an empty security
cookie name. -/
def svcW0 : SessionService := { svcW with security_cookie_name := [] }

/-! ## Theorems -/

/-- The security check of `handle_request`'s body: a non-new session with
a configured security cookie name and a stored token different from the
presented one raises `SessionSecurityError` before anything else runs. -/
theorem request_body_mismatch (svc : SessionService)
    (chain : SessionService.Chain) (p : Bytes) (d : Graph) (cb : Callbacks)
    (s : Session) (hnew : s.is_new = false)
    (hname : svc.security_cookie_name ≠ []) (hmis : s.secure_token ≠ p) :
    svc.request_body chain p d cb s = .error .sessionSecurityError := by
  unfold SessionService.request_body
  rw [if_pos]
  exact ⟨by simp [hnew], hname, hmis⟩

/-- C3 counterexample: with the default configuration
`min_compress_len = 0`, `Sessions.store` never compresses — the guard
`if self.min_compress_len and ...` treats 0 as falsy — even though the
serialized blob `[1, 2, 3, 4, 5]` has length 5, which exceeds the
configured threshold 0, and compression (here shrinking it to the single
byte `[9]`) yields a strictly smaller payload.  The original bytes are
persisted, contradicting the claim that compression happens exactly when
the length exceeds the threshold and compression shrinks. -/
theorem C3_store_min_compress_len_zero_counterexample :
    ((([1, 2, 3, 4, 5] : Bytes).length : Int) > 0) ∧
    (((fun _ => [9]) : Bytes → Bytes) [1, 2, 3, 4, 5]).length
      < ([1, 2, 3, 4, 5] : Bytes).length ∧
    (Sessions.store 0 ⟨fun _ => [9], fun d => .ok d, ZLib.is_compressed⟩
        (fun _ _ => ([], [1, 2, 3, 4, 5])) 1 1 [] false 0).state_data
      = [1, 2, 3, 4, 5] ∧
    (Sessions.store 0 ⟨fun _ => [9], fun d => .ok d, ZLib.is_compressed⟩
        (fun _ _ => ([], [1, 2, 3, 4, 5])) 1 1 [] false 0).state_data
      ≠ [9] := by decide

/-- C3 (amended): for every call to `Sessions.store`, the persisted state
blob is the compressed bytes exactly when `min_compress_len` is nonzero,
the serialized byte length strictly exceeds it, and compression yields a
strictly smaller payload; in every other case the original serialized
bytes are persisted unchanged. -/
theorem C3_store_compression_policy (min_compress_len : Int)
    (comp : CompressorImpl) (dumps : Nat → Bool → Bytes × Bytes)
    (session_id state_id : Int) (secure_token : Bytes) (use_same_state : Bool)
    (data : Nat) :
    (Sessions.store min_compress_len comp dumps session_id state_id
        secure_token use_same_state data).state_data =
      (if min_compress_len ≠ 0 ∧
          (((dumps data (!use_same_state)).2.length : Int) > min_compress_len) ∧
          (comp._compress (dumps data (!use_same_state)).2).length
            < (dumps data (!use_same_state)).2.length
       then comp._compress (dumps data (!use_same_state)).2
       else (dumps data (!use_same_state)).2) := by
  simp only [Sessions.store, Compressor.compress]
  split_ifs <;> tauto

/-- C4 counterexample: the claimed round trip fails for the gzip
compressor on the 1-byte string `[0o37]` (the first gzip magic byte).
The compressor here is a coherent one: `_compress` prepends the gzip
header (never shrinking the payload) and `_decompress` strips it again.
Because a single byte cannot shrink, `compress` returns it unchanged, and
`decompress` then runs `GZipCompressor.is_compressed`, whose access to
`data[1]` raises `IndexError` instead of returning the input unchanged. -/
theorem C4_gzip_roundtrip_counterexample :
    Compressor.decompress
        (GZipCompressor (fun d => [0o37, 0o213, 8, 0] ++ d)
          (fun d => .ok (d.drop 4)))
        (Compressor.compress
          (GZipCompressor (fun d => [0o37, 0o213, 8, 0] ++ d)
            (fun d => .ok (d.drop 4)))
          [0o37])
      = .error .indexError ∧
    Compressor.decompress
        (GZipCompressor (fun d => [0o37, 0o213, 8, 0] ++ d)
          (fun d => .ok (d.drop 4)))
        (Compressor.compress
          (GZipCompressor (fun d => [0o37, 0o213, 8, 0] ++ d)
            (fun d => .ok (d.drop 4)))
          [0o37])
      ≠ .ok [0o37] := by decide

/-- C4 (amended): `decompress (compress x) = x` holds exactly under the
coherence conditions the code silently relies on: when compression is
kept, `is_compressed` must recognize the compressed bytes and
`_decompress` must invert `_compress` on them; when `x` passes through
unchanged, `is_compressed x` must be `False` — that is, `x` must not
itself spoof the format's magic header (byte strings such as
`[0x78, 0x9c]` for zlib or the single byte `[0o37]` for gzip violate
this). -/
theorem C4_compressor_roundtrip (cls : CompressorImpl) (x : Bytes)
    (hkept : Compressor.compress cls x ≠ x →
      cls.is_compressed (cls._compress x) = some true ∧
      cls._decompress (cls._compress x) = .ok x)
    (hpass : Compressor.compress cls x = x →
      cls.is_compressed x = some false) :
    Compressor.decompress cls (Compressor.compress cls x) = .ok x := by
  by_cases h : Compressor.compress cls x = x
  · rw [h, Compressor.decompress, hpass h]
  · have hc := hkept h
    have heq : Compressor.compress cls x = cls._compress x := by
      by_cases hlen : (cls._compress x).length < x.length
      · simp [Compressor.compress, hlen]
      · exact absurd (by simp [Compressor.compress, hlen]) h
    rw [heq, Compressor.decompress, hc.1, hc.2]

/-- C4 witness: a zlib-style compressor that shrinks `[1, 2, 3, 4, 5]` to
the magic-tagged `[0x78, 0x9c, 1]` and decompresses it back satisfies both
coherence hypotheses, and the round trip indeed returns the input. -/
theorem C4_compressor_roundtrip_witness :
    Compressor.decompress
        (ZLibCompressor (fun _ => [0x78, 0x9c, 1])
          (fun d => if d = [0x78, 0x9c, 1] then .ok [1, 2, 3, 4, 5]
                    else .error .libraryError))
        (Compressor.compress
          (ZLibCompressor (fun _ => [0x78, 0x9c, 1])
            (fun d => if d = [0x78, 0x9c, 1] then .ok [1, 2, 3, 4, 5]
                      else .error .libraryError))
          [1, 2, 3, 4, 5])
      = .ok [1, 2, 3, 4, 5] :=
  C4_compressor_roundtrip
    (ZLibCompressor (fun _ => [0x78, 0x9c, 1])
      (fun d => if d = [0x78, 0x9c, 1] then .ok [1, 2, 3, 4, 5]
                else .error .libraryError))
    [1, 2, 3, 4, 5] (by decide) (by decide)

/-- C2 counterexample: malformed persisted state bytes do not always
surface as `StateError`.  The truncated 1-byte blob `[0x78]` — the first
zlib magic byte — makes `ZLibCompressor.is_compressed` itself evaluate
`data[1]` and raise `IndexError` inside `Sessions.fetch`, before the
serializer is ever reached, for any unpickler and any decompression
primitives. -/
theorem C2_fetch_truncated_magic_counterexample :
    Sessions.fetch (ZLibCompressor (fun d => d) (fun d => .ok d))
        ⟨fun _ _ pos => .ok (0, pos + 1)⟩
        (fun _ _ => .ok ⟨7, [65], [], [0x78]⟩) 100 1
      = .error .indexError ∧
    Sessions.fetch (ZLibCompressor (fun d => d) (fun d => .ok d))
        ⟨fun _ _ pos => .ok (0, pos + 1)⟩
        (fun _ _ => .ok ⟨7, [65], [], [0x78]⟩) 100 1
      ≠ .error .stateError := by decide

/-- C2 (amended): for every persisted record whose state bytes survive
decompression and whose session blob loads (or is empty), any unpickling
failure of the state stream — whether the first `load` (the object graph)
or the second (the callback registry) fails — makes `Sessions.fetch`
raise `StateError`; no partially populated graph is returned (a successful
result by construction carries the values of both completed loads).
Malformation caught earlier, at the decompression layer, instead
propagates as that layer's own error (see the counterexample). -/
theorem C2_fetch_malformed_state_raises_StateError (comp : CompressorImpl)
    (u : UnpicklerM) (_fetch : Int → Int → Except PyErr FetchedRecord)
    (session_id state_id : Int) (r : FetchedRecord) (tbl : Option Nat)
    (sb : Bytes)
    (hf : _fetch session_id state_id = .ok r)
    (hd : Compressor.decompress comp r.state_data = .ok sb)
    (ht : Pickle.load_session_table u r.session_data = .ok tbl)
    (hbad : ∀ v1 pos1, u.load tbl sb 0 = .ok (v1, pos1) →
      ∀ v2 pos2, u.load tbl sb pos1 ≠ .ok (v2, pos2)) :
    Sessions.fetch comp u _fetch session_id state_id = .error .stateError := by
  unfold Sessions.fetch Pickle.loads
  simp only [hf, hd, ht]
  cases h1 : u.load tbl sb 0 with
  | error e => simp [h1]
  | ok v =>
    cases h2 : u.load tbl sb v.2 with
    | error e => simp [h1, h2]
    | ok w => exact absurd h2 (hbad v.1 v.2 h1 w.1 w.2)

/-- C2 witness: an unpickler that rejects the 2-byte truncated blob
`[9, 9]` (which passes the zlib sniff untouched, as its first byte is not
the magic) makes `fetch` of that record fail with `StateError`. -/
theorem C2_fetch_malformed_state_raises_StateError_witness :
    Sessions.fetch (ZLibCompressor (fun d => d) (fun d => .ok d))
        ⟨fun _ b pos => if b = [9, 9] then .error .valueError
                        else .ok (b.getD pos 0, pos + 1)⟩
        (fun _ _ => .ok ⟨7, [65], [], [9, 9]⟩) 100 1
      = .error .stateError :=
  C2_fetch_malformed_state_raises_StateError
    (ZLibCompressor (fun d => d) (fun d => .ok d))
    ⟨fun _ b pos => if b = [9, 9] then .error .valueError
                    else .ok (b.getD pos 0, pos + 1)⟩
    (fun _ _ => .ok ⟨7, [65], [], [9, 9]⟩) 100 1
    ⟨7, [65], [], [9, 9]⟩ none [9, 9] rfl rfl rfl
    (fun v1 pos1 h1 => absurd h1 (by simp))

/-- The acquisition step yields the lock whose entry status is
`lock_status`. -/
theorem acquire_lock_status (mgr : Manager) (s : Session) :
    (Session.acquire mgr s).2.1 = Session.lock_status mgr s := by
  unfold Session.acquire Session.lock_status Session.create
  cases hn : s.is_new <;> simp [hn]

/-- The acquisition step records exactly one manager call: `create` for a
new session, `get_lock` otherwise. -/
theorem acquire_trace_shape (mgr : Manager) (s : Session) :
    (Session.acquire mgr s).2.2 = [Ev.create] ∨
    (Session.acquire mgr s).2.2 = [Ev.get_lock] := by
  unfold Session.acquire
  cases hn : s.is_new <;> simp [hn]

/-- The trace of `Session.fetch` is empty (new session) or a single fetch
event. -/
theorem fetch_trace_shape (mgr : Manager) (s : Session) :
    (Session.fetch mgr s).1 = [] ∨
    (Session.fetch mgr s).1 = [Ev.fetch s.session_id s.state_id] := by
  unfold Session.fetch
  cases hn : s.is_new
  · simp only [hn, Bool.false_eq_true, if_false]
    cases mgr.fetchRes s.session_id s.state_id <;> simp
  · simp [hn]

/-- C5: on every execution of `Session.enter` — over all managers, initial
handles and bodies, hence over every exit path: normal completion with
store or delete, the `LockError` raise for a failed acquisition, a fetch
failure, or any error (such as `SessionSecurityError`) signaled by the
body between fetch and store — once the lock context has been entered the
lock is released: the event trace ends with the single `lock_exit` event,
preceded by the `lock_enter`.  The lock is never left held. -/
theorem C5_lock_released_on_every_exit (mgr : Manager) (s : Session)
    (body : Graph → Callbacks → Session → Except PyErr (Session × Response)) :
    ∃ pre, (Session.enter mgr s body).1 = pre ++ [Ev.lock_exit] ∧
      Ev.lock_exit ∉ pre ∧
      Ev.lock_enter (Session.lock_status mgr s) ∈ pre := by
  have hsh := acquire_trace_shape mgr s
  have hlk := acquire_lock_status mgr s
  rcases h : Session.acquire mgr s with ⟨s0, lock, acq⟩
  rw [h] at hsh hlk
  simp only at hsh hlk
  rw [← hlk]
  simp only [Session.enter, h]
  cases lock
  · refine ⟨acq ++ [Ev.lock_enter false], by simp, ?_, by simp⟩
    rcases hsh with h1 | h1 <;> simp [h1]
  · have hft := fetch_trace_shape mgr s0
    rcases hf : Session.fetch mgr s0 with ⟨ftr, fres⟩
    rw [hf] at hft
    simp only at hft
    simp only [hf]
    have hnolock : Ev.lock_exit ∉ acq ++ [Ev.lock_enter true] ++ ftr := by
      rcases hsh with h1 | h1 <;> rcases hft with h2 | h2 <;> simp [h1, h2]
    have henter : Ev.lock_enter true ∈ acq ++ [Ev.lock_enter true] ++ ftr := by
      simp
    cases fres with
    | error e => exact ⟨acq ++ [Ev.lock_enter true] ++ ftr, by simp, hnolock, henter⟩
    | ok v =>
      obtain ⟨s1, d, cb⟩ := v
      cases hb : body d cb s1 with
      | error e =>
        exact ⟨acq ++ [Ev.lock_enter true] ++ ftr, by simp [hb], hnolock, henter⟩
      | ok v2 =>
        obtain ⟨s2, r⟩ := v2
        cases hex : s2.is_expired
        · refine ⟨acq ++ [Ev.lock_enter true] ++ ftr ++ [Session.store s2],
            by simp [hb, hex], ?_, by simp⟩
          simp only [List.mem_append, List.mem_singleton] at hnolock ⊢
          push_neg at hnolock ⊢
          exact ⟨hnolock, by simp [Session.store]⟩
        · refine ⟨acq ++ [Ev.lock_enter true] ++ ftr ++ [Ev.delete s2.session_id],
            by simp [hb, hex], ?_, by simp⟩
          simp only [List.mem_append, List.mem_singleton] at hnolock ⊢
          push_neg at hnolock ⊢
          exact ⟨hnolock, by simp⟩

/-- C6: whenever lock acquisition reports failure (the status yielded by
the lock's `__enter__` is falsy), `Session.enter` raises `LockError`, and
no data operation — no fetch, store or delete — is performed on the
session: every event in the trace is a non-data event. -/
theorem C6_lock_failure_raises_LockError_before_any_data_access
    (mgr : Manager) (s : Session)
    (body : Graph → Callbacks → Session → Except PyErr (Session × Response))
    (h : Session.lock_status mgr s = false) :
    (Session.enter mgr s body).2 = .error .lockError ∧
    ∀ e ∈ (Session.enter mgr s body).1, e.isData = false := by
  have hsh := acquire_trace_shape mgr s
  have hlk := acquire_lock_status mgr s
  rcases ha : Session.acquire mgr s with ⟨s0, lock, acq⟩
  rw [ha] at hsh hlk
  simp only at hsh hlk
  rw [h] at hlk
  subst hlk
  refine ⟨by simp [Session.enter, ha], ?_⟩
  intro e he
  have htr : (Session.enter mgr s body).1
      = acq ++ [Ev.lock_enter false, Ev.lock_exit] := by
    simp [Session.enter, ha]
  rw [htr] at he
  rcases hsh with h1 | h1 <;> subst h1 <;> simp only [List.mem_cons,
    List.mem_append, List.mem_singleton, List.not_mem_nil, or_false] at he <;>
    rcases he with rfl | rfl | rfl <;> rfl

/-- C6 witness: a concrete manager whose `get_lock` yields a failed lock
makes `enter` fail with `LockError` and touch no data. -/
theorem C6_lock_failure_witness :
    Session.lock_status ⟨fun _ => (1, 1, [0], true), fun _ => false,
        fun _ _ => .error .storageError⟩
      (Session.init false [65] (some 5) (some 0) false) = false ∧
    ((Session.enter ⟨fun _ => (1, 1, [0], true), fun _ => false,
          fun _ _ => .error .storageError⟩
        (Session.init false [65] (some 5) (some 0) false)
        (fun _ _ s => .ok (s, ⟨false, false⟩))).2 = .error .lockError ∧
      ∀ e ∈ (Session.enter ⟨fun _ => (1, 1, [0], true), fun _ => false,
          fun _ _ => .error .storageError⟩
        (Session.init false [65] (some 5) (some 0) false)
        (fun _ _ s => .ok (s, ⟨false, false⟩))).1, e.isData = false) :=
  ⟨rfl,
   C6_lock_failure_raises_LockError_before_any_data_access
     ⟨fun _ => (1, 1, [0], true), fun _ => false, fun _ _ => .error .storageError⟩
     (Session.init false [65] (some 5) (some 0) false)
     (fun _ _ s => .ok (s, ⟨false, false⟩)) rfl⟩

/-- C7: on every normal (non-exceptional) exit of `Session.enter`, if the
final handle is marked expired then `delete(session_id)` was called and no
store occurred; otherwise `store` was called, targeting
`previous_state_id` when `use_same_state` is true and `state_id` when it
is false, and no delete occurred. -/
theorem C7_normal_exit_deletes_or_stores (mgr : Manager) (s : Session)
    (body : Graph → Callbacks → Session → Except PyErr (Session × Response))
    (s2 : Session) (r : Response)
    (h : (Session.enter mgr s body).2 = .ok (s2, r)) :
    (s2.is_expired = true →
      Ev.delete s2.session_id ∈ (Session.enter mgr s body).1 ∧
      ∀ e ∈ (Session.enter mgr s body).1, e.isStore = false) ∧
    (s2.is_expired = false →
      Ev.store s2.session_id
          (if s2.use_same_state then s2.previous_state_id else s2.state_id)
          s2.secure_token s2.use_same_state ∈ (Session.enter mgr s body).1 ∧
      ∀ e ∈ (Session.enter mgr s body).1, e.isDelete = false) := by
  have hsh := acquire_trace_shape mgr s
  rcases ha : Session.acquire mgr s with ⟨s0, lock, acq⟩
  rw [ha] at hsh
  simp only at hsh
  simp only [Session.enter, ha] at h ⊢
  cases lock
  · simp at h
  · have hft := fetch_trace_shape mgr s0
    rcases hf : Session.fetch mgr s0 with ⟨ftr, fres⟩
    rw [hf] at hft
    simp only at hft
    simp only [hf] at h ⊢
    cases fres with
    | error e => simp at h
    | ok v =>
      obtain ⟨s1, d, cb⟩ := v
      cases hb : body d cb s1 with
      | error e => simp [hb] at h
      | ok v2 =>
        obtain ⟨s2x, rx⟩ := v2
        simp only [hb] at h ⊢
        have hpair : s2x = s2 ∧ rx = r := by
          by_cases hex0 : s2x.is_expired = true <;> simp [hex0] at h <;> exact h
        obtain ⟨rfl, rfl⟩ := hpair
        cases hex : s2x.is_expired
        · -- store path
          rcases hsh with h1 | h1 <;> rcases hft with h2 | h2 <;> subst h1 <;>
            subst h2 <;> simp [hex, Session.store, Ev.isDelete]
        · -- delete path
          rcases hsh with h1 | h1 <;> rcases hft with h2 | h2 <;> subst h1 <;>
            subst h2 <;> simp [hex, Ev.isStore]

/-- C7 witness: a concrete normal run through `mgrW` ends in the store
call targeting `state_id = 8` (the advanced id, since `use_same_state` is
false), with no delete. -/
theorem C7_normal_exit_deletes_or_stores_witness :
    (Session.enter mgrW sW bodyW).2 = .ok (s2W, ⟨false, false⟩) ∧
    ((s2W.is_expired = true →
      Ev.delete s2W.session_id ∈ (Session.enter mgrW sW bodyW).1 ∧
      ∀ e ∈ (Session.enter mgrW sW bodyW).1, e.isStore = false) ∧
    (s2W.is_expired = false →
      Ev.store s2W.session_id
          (if s2W.use_same_state then s2W.previous_state_id else s2W.state_id)
          s2W.secure_token s2W.use_same_state ∈ (Session.enter mgrW sW bodyW).1 ∧
      ∀ e ∈ (Session.enter mgrW sW bodyW).1, e.isDelete = false)) :=
  ⟨rfl, C7_normal_exit_deletes_or_stores mgrW sW bodyW s2W ⟨false, false⟩ rfl⟩

/-- C8: for every non-new session whose manager fetch succeeds,
`Session.fetch` with `use_same_state` false sets the visible `state_id` to
the latest-state id returned by the backend and `previous_state_id` to the
state id that was requested; with `use_same_state` true it leaves both
`state_id` and `previous_state_id` unchanged. -/
theorem C8_fetch_state_id_policy (mgr : Manager) (s : Session)
    (new_state_id : Int) (tok : Bytes) (d : Graph) (cb : Callbacks)
    (hnew : s.is_new = false)
    (hf : mgr.fetchRes s.session_id s.state_id = .ok (new_state_id, tok, d, cb)) :
    ∃ s1, (Session.fetch mgr s).2 = .ok (s1, d, cb) ∧
      (s.use_same_state = false →
        s1.state_id = some new_state_id ∧ s1.previous_state_id = s.state_id) ∧
      (s.use_same_state = true →
        s1.state_id = s.state_id ∧ s1.previous_state_id = s.previous_state_id) := by
  unfold Session.fetch
  simp only [hnew, Bool.false_eq_true, if_false, hf]
  cases hu : s.use_same_state
  · simp only [hu, Bool.false_eq_true, if_false]
    refine ⟨_, rfl, fun _ => ⟨rfl, rfl⟩, fun hx => ?_⟩
    cases hx
  · simp only [hu, if_true]
    refine ⟨_, rfl, fun hx => ?_, fun _ => ⟨rfl, rfl⟩⟩
    cases hx

/-- C8 witness: fetching session 5, state 0 through `mgrW` with
`use_same_state` false advances `state_id` to 8 and remembers 0. -/
theorem C8_fetch_state_id_policy_witness :
    sW.is_new = false ∧
    ∃ s1, (Session.fetch mgrW sW).2 = .ok (s1, [(1, 2)], []) ∧
      (sW.use_same_state = false →
        s1.state_id = some 8 ∧ s1.previous_state_id = sW.state_id) ∧
      (sW.use_same_state = true →
        s1.state_id = sW.state_id ∧ s1.previous_state_id = sW.previous_state_id) :=
  ⟨rfl, C8_fetch_state_id_policy mgrW sW 8 [65] [(1, 2)] [] rfl rfl⟩

/-- C1: for every non-new session whose stored secure token differs from
the token presented by the request (with a configured security cookie
name), the `with session.enter()` block of `handle_request` raises
`SessionSecurityError` after the fetch and before any store: the event
trace is exactly get-lock, lock-enter, fetch, lock-release — no store and
no delete call is made on that exit path, so the persisted session data is
left unchanged — and the surrounding `except InvalidSessionError` handler
then turns the error into the raised redirect response. -/
theorem C1_token_mismatch_raises_security_error (svc : SessionService)
    (mgr : Manager) (chain : SessionService.Chain) (request : Request)
    (sid stid new_state_id : Int) (stored presented : Bytes)
    (d : Graph) (cb : Callbacks)
    (hids : svc.get_state_ids request = .ok (false, some sid, some stid))
    (htok : svc.get_security_cookie request = .ok presented)
    (hlock : mgr.getLockRes (some sid) = true)
    (hf : mgr.fetchRes (some sid) (some stid) = .ok (new_state_id, stored, d, cb))
    (hname : svc.security_cookie_name ≠ [])
    (hmismatch : stored ≠ presented) :
    (svc.handle_request_try mgr chain request).2 = .error .sessionSecurityError ∧
    (svc.handle_request_try mgr chain request).1 =
      [Ev.get_lock, Ev.lock_enter true, Ev.fetch (some sid) (some stid),
        Ev.lock_exit] ∧
    (svc.handle_request mgr chain request).2 = .error .redirect := by
  have hmain : svc.handle_request_try mgr chain request =
      ([Ev.get_lock, Ev.lock_enter true, Ev.fetch (some sid) (some stid),
        Ev.lock_exit], .error .sessionSecurityError) := by
    unfold SessionService.handle_request_try
    rw [hids, htok]
    simp only [Session.enter, Session.acquire, Session.init, Session.fetch,
      Bool.false_eq_true, if_false, hlock, Bool.true_eq_false, hf]
    cases hc : (request.is_xhr || !svc.states_history) <;>
      simp only [hc, Bool.false_eq_true, if_false, if_true] <;>
      rw [request_body_mismatch svc chain presented d cb _ rfl hname hmismatch] <;>
      rfl
  refine ⟨by rw [hmain], by rw [hmain], ?_⟩
  unfold SessionService.handle_request
  rw [hmain]
  rfl

/-- C1 witness: session 5 was created with stored token `b"A"`; a request
presenting token `b"B"` gets `SessionSecurityError` from the session
block, the trace shows the fetch followed directly by the lock release,
and `handle_request` raises the redirect. -/
theorem C1_token_mismatch_raises_security_error_witness :
    svcW.get_state_ids reqW = .ok (false, some 5, some 0) ∧
    svcW.get_security_cookie reqW = .ok [66] ∧
    mgrW.getLockRes (some 5) = true ∧
    mgrW.fetchRes (some 5) (some 0) = .ok (8, [65], [(1, 2)], []) ∧
    svcW.security_cookie_name ≠ [] ∧
    ([65] : Bytes) ≠ [66] ∧
    ((svcW.handle_request_try mgrW chainW reqW).2
        = .error .sessionSecurityError ∧
      (svcW.handle_request_try mgrW chainW reqW).1 =
        [Ev.get_lock, Ev.lock_enter true, Ev.fetch (some 5) (some 0),
          Ev.lock_exit] ∧
      (svcW.handle_request mgrW chainW reqW).2 = .error .redirect) :=
  ⟨by decide, by decide, rfl, rfl, by decide, by decide,
   C1_token_mismatch_raises_security_error svcW mgrW chainW reqW 5 0 8
     [65] [66] [(1, 2)] [] (by decide) (by decide) rfl rfl (by decide)
     (by decide)⟩

/-- The body of `handle_request` skips the token comparison entirely when
the configured security cookie name is empty: with a successful chain it
returns normally, whatever the tokens are. -/
theorem request_body_empty_name (svc : SessionService)
    (chain : SessionService.Chain) (p : Bytes) (d : Graph) (cb : Callbacks)
    (s : Session) (resp : Response) (d1 : Graph)
    (hname : svc.security_cookie_name = [])
    (hchain : chain.next d cb = .ok (resp, d1)) :
    ∃ s2, svc.request_body chain p d cb s = .ok (s2, resp) := by
  unfold SessionService.request_body
  rw [if_neg, hchain]
  · exact ⟨_, rfl⟩
  · rintro ⟨-, h2, -⟩
    exact h2 hname

/-- C9: `handle_request` performs the secure-token comparison only when
the session is not new and the configured security cookie name is
non-empty.  When `security_cookie['name']` is the empty string, token
validation is skipped entirely: for any presented and stored tokens
(mismatching or not), a run whose other steps succeed completes normally,
with no `SessionSecurityError`. -/
theorem C9_empty_cookie_name_skips_token_check (svc : SessionService)
    (mgr : Manager) (chain : SessionService.Chain) (request : Request)
    (sid stid new_state_id : Int) (stored presented : Bytes)
    (d : Graph) (cb : Callbacks) (resp : Response) (d1 : Graph)
    (hname : svc.security_cookie_name = [])
    (hids : svc.get_state_ids request = .ok (false, some sid, some stid))
    (htok : svc.get_security_cookie request = .ok presented)
    (hlock : mgr.getLockRes (some sid) = true)
    (hf : mgr.fetchRes (some sid) (some stid) = .ok (new_state_id, stored, d, cb))
    (hchain : chain.next d cb = .ok (resp, d1)) :
    ∃ s2, (svc.handle_request_try mgr chain request).2 = .ok (s2, resp) := by
  unfold SessionService.handle_request_try
  rw [hids, htok]
  simp only [Session.enter, Session.acquire, Session.init, Session.fetch,
    Bool.false_eq_true, if_false, hlock, Bool.true_eq_false, hf]
  cases hc : (request.is_xhr || !svc.states_history) <;>
    simp only [hc, Bool.false_eq_true, if_false, if_true]
  · obtain ⟨s2, hb⟩ := request_body_empty_name svc chain presented d cb
      ⟨false, stored, some sid, some new_state_id, some stid, false, d, false⟩
      resp d1 hname hchain
    refine ⟨s2, ?_⟩
    cases hex : s2.is_expired <;> simp [hb, hex]
  · obtain ⟨s2, hb⟩ := request_body_empty_name svc chain presented d cb
      ⟨false, stored, some sid, some stid, some stid, true, d, false⟩
      resp d1 hname hchain
    refine ⟨s2, ?_⟩
    cases hex : s2.is_expired <;> simp [hb, hex]

/-- C9 witness: with an empty security cookie name, the stored token
`b"A"` and the (empty) presented token differ, yet the request completes
normally. -/
theorem C9_empty_cookie_name_skips_token_check_witness :
    svcW0.security_cookie_name = [] ∧
    svcW0.get_state_ids reqW = .ok (false, some 5, some 0) ∧
    svcW0.get_security_cookie reqW = .ok [] ∧
    mgrW.getLockRes (some 5) = true ∧
    mgrW.fetchRes (some 5) (some 0) = .ok (8, [65], [(1, 2)], []) ∧
    chainW.next [(1, 2)] [] = .ok (⟨false, false⟩, [(1, 2)]) ∧
    ∃ s2, (svcW0.handle_request_try mgrW chainW reqW).2
      = .ok (s2, ⟨false, false⟩) :=
  ⟨rfl, by decide, by decide, rfl, rfl, rfl,
   C9_empty_cookie_name_skips_token_check svcW0 mgrW chainW reqW 5 0 8
     [65] [] [(1, 2)] [] ⟨false, false⟩ [(1, 2)] rfl (by decide) (by decide)
     rfl rfl rfl⟩

/-- `unpack2` fails only with `ValueError`. -/
theorem unpack2_error {α : Type} (l : List α) (e : PyErr)
    (h : unpack2 l = .error e) : e = .valueError := by
  unfold unpack2 at h
  split at h <;> simp_all

/-- `pyInt` fails only with `ValueError`. -/
theorem pyInt_error (s : PyStr) (e : PyErr) (h : pyInt s = .error e) :
    e = .valueError := by
  simp only [pyInt] at h
  split at h <;> split at h <;> simp_all

/-- `get_session_cookie` fails only with `ValueError` (cookie unpacking or
`int` conversion). -/
theorem get_session_cookie_error (svc : SessionService) (request : Request)
    (e : PyErr) (h : svc.get_session_cookie request = .error e) :
    e = .valueError := by
  unfold SessionService.get_session_cookie at h
  cases h1 : unpack2 (SessionService.get_cookie request svc.session_cookie_name) with
  | error e2 =>
    rw [h1] at h
    cases h
    exact unpack2_error _ _ h1
  | ok v =>
    rw [h1] at h
    obtain ⟨data, x⟩ := v
    cases data with
    | none => cases h
    | some dd =>
      by_cases hd : dd.isEmpty <;> simp only [hd, if_true, if_false,
        Bool.false_eq_true] at h
      · cases h
      · exact pyInt_error _ _ h

/-- The session-id expression of the `try` block fails only with
`KeyError` or `ValueError` — both caught by `extract_state_ids`. -/
theorem session_id_expr_error (svc : SessionService) (request : Request)
    (e : PyErr) (h : SessionService.session_id_expr svc request = .error e) :
    SessionService.pyCatches e = true := by
  unfold SessionService.session_id_expr at h
  cases h1 : svc.get_session_cookie request with
  | error e2 =>
    rw [h1] at h
    cases h
    rw [get_session_cookie_error svc request _ h1]
    rfl
  | ok c =>
    simp only [h1] at h
    by_cases hc : c ≠ 0
    · rw [if_pos hc] at h
      cases h
    · rw [if_neg hc] at h
      cases h2 : request.params "_s".toList with
      | none => rw [h2] at h; cases h; rfl
      | some v =>
        rw [h2] at h
        rw [pyInt_error _ _ h]
        rfl

/-- The state-id expression of the `try` block fails only with `KeyError`
or `ValueError` — both caught by `extract_state_ids`. -/
theorem state_id_expr_error (svc : SessionService) (request : Request)
    (e : PyErr) (h : SessionService.state_id_expr svc request = .error e) :
    SessionService.pyCatches e = true := by
  unfold SessionService.state_id_expr at h
  by_cases hs : svc.states_history = true
  · rw [if_pos hs] at h
    cases h2 : request.params "_c".toList with
    | none => rw [h2] at h; cases h; rfl
    | some v =>
      rw [h2] at h
      rw [pyInt_error _ _ h]
      rfl
  · rw [if_neg hs] at h
    cases h

/-- Every error the `try` block of `extract_state_ids` can produce matches
the `except (KeyError, ValueError, TypeError)` clause. -/
theorem extract_try_error (svc : SessionService) (request : Request)
    (e : PyErr) (h : svc.extract_try request = .error e) :
    SessionService.pyCatches e = true := by
  unfold SessionService.extract_try at h
  cases h1 : SessionService.session_id_expr svc request with
  | error e1 =>
    rw [h1] at h
    cases h
    exact session_id_expr_error svc request _ h1
  | ok sid =>
    rw [h1] at h
    cases h2 : SessionService.state_id_expr svc request with
    | error e2 =>
      rw [h2] at h
      cases h
      exact state_id_expr_error svc request _ h2
    | ok stid => rw [h2] at h; cases h

/-- C10: whenever the OAuth shortcut is not taken and the `try` block of
`extract_state_ids` raises — any missing or non-integer session/state
parameter or cookie — the exception is one of `KeyError`, `ValueError`,
`TypeError`, it is caught, `extract_state_ids` returns `(None, None)`
instead of propagating, and `get_state_ids` reports a fresh session as
`(True, None, None)`. -/
theorem C10_malformed_ids_fall_back_to_fresh_session (svc : SessionService)
    (request : Request) (e : PyErr)
    (hoauth : svc.oauth_branch request = none)
    (htry : svc.extract_try request = .error e) :
    SessionService.pyCatches e = true ∧
    svc.extract_state_ids request = .ok (none, none) ∧
    svc.get_state_ids request = .ok (true, none, none) := by
  have hc := extract_try_error svc request e htry
  have hx : svc.extract_state_ids request = .ok (none, none) := by
    unfold SessionService.extract_state_ids
    simp only [hoauth, htry, hc, if_true]
  refine ⟨hc, hx, ?_⟩
  unfold SessionService.get_state_ids
  rw [hx]
  rfl

/-- C10 witness: a request with no session cookie and a non-integer `_s`
parameter makes the `try` block raise `ValueError`, and a fresh session is
reported. -/
theorem C10_malformed_ids_fall_back_to_fresh_session_witness :
    svcW.oauth_branch
        ⟨fun _ => none,
         fun n => if n = "_s".toList then some "abc".toList else none,
         false⟩ = none ∧
    svcW.extract_try
        ⟨fun _ => none,
         fun n => if n = "_s".toList then some "abc".toList else none,
         false⟩ = .error .valueError ∧
    (SessionService.pyCatches .valueError = true ∧
      svcW.extract_state_ids
          ⟨fun _ => none,
           fun n => if n = "_s".toList then some "abc".toList else none,
           false⟩ = .ok (none, none) ∧
      svcW.get_state_ids
          ⟨fun _ => none,
           fun n => if n = "_s".toList then some "abc".toList else none,
           false⟩ = .ok (true, none, none)) :=
  ⟨by decide, by decide,
   C10_malformed_ids_fall_back_to_fresh_session svcW
     ⟨fun _ => none,
      fun n => if n = "_s".toList then some "abc".toList else none,
      false⟩ .valueError (by decide) (by decide)⟩

end Nagare
